import Mathlib

/-!
Verification of `AP_MotorsHeli_Single` (traditional-helicopter motor mixing core)
against its specification.

The repository provides `libraries/AP_Motors/AP_MotorsHeli_Single.h`: the class
interface with several inline method bodies (the rotor-speed queries, the
tail-type / gyro-gain / flybar / phase-angle accessors and the yaw-passthrough
predicate).  Bodies that live in the unavailable `.cpp` / `AP_MotorsHeli_RSC`
files (the rotor-speed-controller ramp, `allow_arming`, the swash mixing
factors, the tail control law, `get_motor_mask`) are modelled from the
specification text; each such definition carries a doc comment starting with
`Modelled from the spec:`.

Machine integers (`int16_t`, `uint16_t`) are modelled as `Int` / `Nat`; the
values involved (normalized 0–1000 speeds, pwm 1000–2000, angles in degrees)
never approach the overflow boundary on the code paths verified here, and where
an `int16_t` range matters (the gyro-gain setter) it appears as an explicit
hypothesis.  C++ const methods are embedded as `State → Value × State`
functions: the returned state is the state the method leaves behind, so
frame conditions are statable.
-/

namespace HeliSingle

/-! ## Constants from `AP_MotorsHeli_Single.h` -/

/-- Output channel index of CH_7 (channels are numbered CH_1 = 0, …). -/
def CH_7 : Nat := 6

/-- Output channel index of CH_8. -/
def CH_8 : Nat := 7

/-- The main rotor speed-control output channel (`AP_MOTORS_HELI_SINGLE_RSC`). -/
def AP_MOTORS_HELI_SINGLE_RSC : Nat := CH_8

/-- The auxiliary output channel (`AP_MOTORS_HELI_SINGLE_AUX`), used for the
external gyro gain and the direct-drive tail ESC. -/
def AP_MOTORS_HELI_SINGLE_AUX : Nat := CH_7

/-- Default angular position of swash servo 1 (degrees). -/
def AP_MOTORS_HELI_SINGLE_SERVO1_POS : Int := -60

/-- Default angular position of swash servo 2 (degrees). -/
def AP_MOTORS_HELI_SINGLE_SERVO2_POS : Int := 60

/-- Default angular position of swash servo 3 (degrees). -/
def AP_MOTORS_HELI_SINGLE_SERVO3_POS : Int := 180

/-- Swash type selector: 3-servo CCPM. -/
def AP_MOTORS_HELI_SINGLE_SWASH_CCPM : Int := 0

/-- Swash type selector: H1 mechanical mixing. -/
def AP_MOTORS_HELI_SINGLE_SWASH_H1 : Int := 1

/-- Tail type: plain mechanical servo. -/
def AP_MOTORS_HELI_SINGLE_TAILTYPE_SERVO : Int := 0

/-- Tail type: mechanical servo with external rate gyro. -/
def AP_MOTORS_HELI_SINGLE_TAILTYPE_SERVO_EXTGYRO : Int := 1

/-- Tail type: direct-drive variable pitch. -/
def AP_MOTORS_HELI_SINGLE_TAILTYPE_DIRECTDRIVE_VARPITCH : Int := 2

/-- Tail type: direct-drive fixed pitch. -/
def AP_MOTORS_HELI_SINGLE_TAILTYPE_DIRECTDRIVE_FIXEDPITCH : Int := 3

/-- Default direct-drive variable-pitch tail speed. -/
def AP_MOTOR_HELI_SINGLE_DDTAIL_DEFAULT : Int := 500

/-- Default external gyro gain (pwm). -/
def AP_MOTORS_HELI_SINGLE_EXT_GYRO_GAIN : Int := 350

/-- Per-tick ramp increment for the direct drive tail rotor
(`AP_MOTORS_HELI_SINGLE_TAIL_RAMP_INCREMENT`); the header comment documents
5 = (2 sec × 100 Hz) / 1000, i.e. full speed is reached in 2 seconds. -/
def AP_MOTORS_HELI_SINGLE_TAIL_RAMP_INCREMENT : Int := 5

/-! ## RotorSpeedController (`AP_MotorsHeli_RSC`) -/

/-- Modelled from the spec: the state of one `AP_MotorsHeli_RSC` rotor speed
controller (§3 "Rotor speed state", §4.3) — the class itself is not under
`src/`.  Fields: desired speed (0–1000 normalized, ramp target), estimated
speed (0–1000, feedback from the drive), the flight-critical speed threshold,
and the internal ramp position that advances toward the desired value. -/
structure RSCState where
  desired_speed : Int
  estimated_speed : Int
  critical_speed : Int
  ramp : Int
  deriving Repr, DecidableEq

/-- Modelled from the spec: `AP_MotorsHeli_RSC::get_estimated_speed`, a pure
accessor of the controller's current feedback estimate (§4.3). -/
def RSCState.get_estimated_speed (s : RSCState) : Int := s.estimated_speed

/-- Modelled from the spec: `AP_MotorsHeli_RSC::get_desired_speed`, a pure
accessor of the ramp target (§4.3). -/
def RSCState.get_desired_speed (s : RSCState) : Int := s.desired_speed

/-- Modelled from the spec: `AP_MotorsHeli_RSC::get_critical_speed`, a pure
accessor of the flight-critical speed threshold (§3, §4.3). -/
def RSCState.get_critical_speed (s : RSCState) : Int := s.critical_speed

/-- Clamp a value to the closed interval `[lo, hi]` (ArduPilot `constrain_int16`
semantics; spec §7: out-of-range values are clamped silently, never rejected). -/
def constrain_value (v lo hi : Int) : Int :=
  if v < lo then lo else if hi < v then hi else v

/-- Modelled from the spec: `AP_MotorsHeli_RSC::set_desired_speed` clamps its
argument to [0, 1000] and stores it as the ramp target without immediately
changing the output (§4.3). -/
def RSCState.set_desired_speed (s : RSCState) (v : Int) : RSCState :=
  { s with desired_speed := constrain_value v 0 1000 }

/-- Modelled from the spec: `AP_MotorsHeli_RSC::update`, called once per tick,
advances the internal ramp value toward the desired value by at most one fixed
increment, never overshooting it, with the ramp position clamped to [0, 1000]
(§3 invariant, §4.3). -/
def rsc_update (inc : Int) (s : RSCState) : RSCState :=
  let r :=
    if s.ramp < s.desired_speed then min (s.ramp + inc) s.desired_speed
    else if s.desired_speed < s.ramp then max (s.ramp - inc) s.desired_speed
    else s.ramp
  { s with ramp := constrain_value r 0 1000 }

/-- Repeated per-tick updates of the rotor speed controller. -/
def rsc_iterate (inc : Int) : Nat → RSCState → RSCState
  | 0, s => s
  | n + 1, s => rsc_iterate inc n (rsc_update inc s)

/-! ## Orchestrator state (`AP_MotorsHeli_Single`) -/

/-- The state of one `AP_MotorsHeli_Single` instance: the two owned rotor speed
controllers (header lines 158–159) and the parameter fields (header lines
162–171).  `rsc_need_spinup` is modelled from the spec: whether the rotor "is
configured to not require spin-up" is configuration held in the parent
`AP_MotorsHeli` class, which is not under `src/` (§4.4 `allow_arming`).
`outputs` models the output-channel boundary: the pwm value most recently
written to each channel, indexed by channel number. -/
structure HeliState where
  main_rotor : RSCState
  tail_rotor : RSCState
  servo1_pos : Int
  servo2_pos : Int
  servo3_pos : Int
  tail_type : Int
  swash_type : Int
  ext_gyro_gain : Int
  phase_angle : Int
  collective_yaw_effect : Int
  flybar_mode : Int
  direct_drive_tailspeed : Int
  rsc_need_spinup : Bool
  outputs : List Int
  deriving Repr, DecidableEq

/-! ## Queries exposed upward (header lines 92–122)

Each C++ const method is embedded as `HeliState → Value × HeliState`; the
second component is the state after the call. -/

/-- Embeds `get_estimated_rotor_speed` (header line 93):
`return _main_rotor.get_estimated_speed();`. -/
def get_estimated_rotor_speed (s : HeliState) : Int × HeliState :=
  (s.main_rotor.get_estimated_speed, s)

/-- Embeds `get_desired_rotor_speed` (header line 96):
`return _main_rotor.get_desired_speed();`. -/
def get_desired_rotor_speed (s : HeliState) : Int × HeliState :=
  (s.main_rotor.get_desired_speed, s)

/-- Embeds `rotor_speed_above_critical` (header line 99):
`return _main_rotor.get_estimated_speed() > _main_rotor.get_critical_speed();`. -/
def rotor_speed_above_critical (s : HeliState) : Bool × HeliState :=
  (decide (s.main_rotor.get_estimated_speed > s.main_rotor.get_critical_speed), s)

/-- Embeds the `tail_type` getter (header line 109): `return _tail_type;`. -/
def tail_type_query (s : HeliState) : Int × HeliState :=
  (s.tail_type, s)

/-- Embeds the `ext_gyro_gain` getter (header line 112):
`return _ext_gyro_gain;`. -/
def ext_gyro_gain_get (s : HeliState) : Int × HeliState :=
  (s.ext_gyro_gain, s)

/-- Embeds the `ext_gyro_gain` setter (header line 113):
`_ext_gyro_gain = pwm;` — the value is stored as-is, with no clamping or
validation. -/
def ext_gyro_gain_set (pwm : Int) (s : HeliState) : HeliState :=
  { s with ext_gyro_gain := pwm }

/-- Embeds `has_flybar` (header line 116): `return _flybar_mode;` — the
`AP_Int8` parameter converted to `bool` (nonzero means present). -/
def has_flybar (s : HeliState) : Bool × HeliState :=
  (decide (s.flybar_mode ≠ 0), s)

/-- Embeds `get_phase_angle` (header line 119): `return _phase_angle;`. -/
def get_phase_angle (s : HeliState) : Int × HeliState :=
  (s.phase_angle, s)

/-- Embeds `supports_yaw_passthrough` (header line 122):
`return _tail_type == AP_MOTORS_HELI_SINGLE_TAILTYPE_SERVO_EXTGYRO;`. -/
def supports_yaw_passthrough (s : HeliState) : Bool × HeliState :=
  (decide (s.tail_type = AP_MOTORS_HELI_SINGLE_TAILTYPE_SERVO_EXTGYRO), s)

/-- Modelled from the spec: `get_motor_mask` (declared header line 106, body not
under `src/`) — a pure read returning the bitmask of output channels this
configuration claims: swash servos 1–3 and the tail servo on channels 1–4, plus
the auxiliary (CH_7) and rotor-speed-control (CH_8) channels (§4.4, §6). -/
def get_motor_mask (s : HeliState) : Nat × HeliState :=
  ((1 <<< 0) ||| (1 <<< 1) ||| (1 <<< 2) ||| (1 <<< 3) |||
   (1 <<< AP_MOTORS_HELI_SINGLE_AUX) ||| (1 <<< AP_MOTORS_HELI_SINGLE_RSC), s)

/-- Modelled from the spec: `allow_arming` (declared header line 87, body not
under `src/`) — "true only when the main rotor's estimated speed exceeds its
critical threshold OR the rotor is configured to not require spin-up" (§4.4). -/
def allow_arming (s : HeliState) : Bool × HeliState :=
  (decide (s.main_rotor.get_estimated_speed > s.main_rotor.get_critical_speed)
     || !s.rsc_need_spinup, s)

/-! ## Swashplate mixer factors -/

/-- Degree-to-radian conversion used by the swash factor formulas. -/
noncomputable def deg_to_rad (x : ℝ) : ℝ := x * (Real.pi / 180)

/-- Modelled from the spec: the roll factor of one swash servo, derived in
`calculate_roll_pitch_collective_factors` (declared header line 140, body not
under `src/`) as `cos(angle_i + phase_angle)`, angles in degrees (§4.1). -/
noncomputable def swash_roll_factor (servo_pos phase_angle : ℝ) : ℝ :=
  Real.cos (deg_to_rad (servo_pos + phase_angle))

/-- Modelled from the spec: the pitch factor of one swash servo, derived as
`sin(angle_i + phase_angle)` (§4.1). -/
noncomputable def swash_pitch_factor (servo_pos phase_angle : ℝ) : ℝ :=
  Real.sin (deg_to_rad (servo_pos + phase_angle))

/-- Modelled from the spec: the roll contribution a servo receives in the
per-tick mixing step `servo_i = roll*roll_factor_i + …` (§4.1). -/
noncomputable def swash_roll_contribution (roll servo_pos phase_angle : ℝ) : ℝ :=
  roll * swash_roll_factor servo_pos phase_angle

/-! ## Tail control law -/

/-- Modelled from the spec: the plain-servo tail control law,
`output = clamp(yaw_command + collective_feed_forward)`, clamped to the
normalized signed actuator range −1000..1000 (§4.2, §4.1). -/
def tail_servo_law (yaw_cmd coll_ff : Int) : Int :=
  constrain_value (yaw_cmd + coll_ff) (-1000) 1000

/-- Modelled from the spec: the tail actuator command computed by `move_yaw`
(declared header line 146, body not under `src/`), dispatching on the tail-type
variant: plain servo and servo-with-external-gyro use the servo mixing law,
direct-drive variable pitch uses the same mixing for blade pitch, direct-drive
fixed pitch maps the yaw command directly to the rotor speed target (0–1000);
an unknown tail type falls back to the plain servo law (§4.2, §7). -/
def tail_control_law (t yaw_cmd coll_ff : Int) : Int :=
  if t = AP_MOTORS_HELI_SINGLE_TAILTYPE_SERVO then
    tail_servo_law yaw_cmd coll_ff
  else if t = AP_MOTORS_HELI_SINGLE_TAILTYPE_SERVO_EXTGYRO then
    tail_servo_law yaw_cmd coll_ff
  else if t = AP_MOTORS_HELI_SINGLE_TAILTYPE_DIRECTDRIVE_VARPITCH then
    tail_servo_law yaw_cmd coll_ff
  else if t = AP_MOTORS_HELI_SINGLE_TAILTYPE_DIRECTDRIVE_FIXEDPITCH then
    constrain_value yaw_cmd 0 1000
  else
    tail_servo_law yaw_cmd coll_ff

/-! ## Concrete example states -/

/-- A concrete orchestrator state with the header's default configuration
values, used to instantiate theorems at explicit inputs. -/
def baseState : HeliState :=
  { main_rotor := { desired_speed := 0, estimated_speed := 0,
                    critical_speed := 500, ramp := 0 }
    tail_rotor := { desired_speed := 0, estimated_speed := 0,
                    critical_speed := 500, ramp := 0 }
    servo1_pos := AP_MOTORS_HELI_SINGLE_SERVO1_POS
    servo2_pos := AP_MOTORS_HELI_SINGLE_SERVO2_POS
    servo3_pos := AP_MOTORS_HELI_SINGLE_SERVO3_POS
    tail_type := AP_MOTORS_HELI_SINGLE_TAILTYPE_SERVO
    swash_type := AP_MOTORS_HELI_SINGLE_SWASH_CCPM
    ext_gyro_gain := AP_MOTORS_HELI_SINGLE_EXT_GYRO_GAIN
    phase_angle := 0
    collective_yaw_effect := 0
    flybar_mode := 0
    direct_drive_tailspeed := AP_MOTOR_HELI_SINGLE_DDTAIL_DEFAULT
    rsc_need_spinup := true
    outputs := [] }

/-- A concrete state whose main-rotor estimated speed equals exactly the
critical speed threshold (both 500). -/
def atThresholdState : HeliState :=
  { baseState with
    main_rotor := { desired_speed := 500, estimated_speed := 500,
                    critical_speed := 500, ramp := 500 } }

/-! ## Helper lemmas about the rotor-speed ramp -/

lemma rsc_update_desired_eq (inc : Int) (s : RSCState) :
    (rsc_update inc s).desired_speed = s.desired_speed := rfl

lemma rsc_update_estimated_eq (inc : Int) (s : RSCState) :
    (rsc_update inc s).estimated_speed = s.estimated_speed := rfl

lemma rsc_update_critical_eq (inc : Int) (s : RSCState) :
    (rsc_update inc s).critical_speed = s.critical_speed := rfl

lemma rsc_update_ramp_char (inc : Int) (s : RSCState)
    (h0 : 0 ≤ s.ramp) (h1 : s.ramp ≤ 1000)
    (hd0 : 0 ≤ s.desired_speed) (hd1 : s.desired_speed ≤ 1000)
    (hinc : 0 < inc) :
    (rsc_update inc s).ramp =
      if s.ramp < s.desired_speed then min (s.ramp + inc) s.desired_speed
      else if s.desired_speed < s.ramp then max (s.ramp - inc) s.desired_speed
      else s.ramp := by
  simp only [rsc_update, constrain_value]
  split_ifs <;> omega

lemma rsc_iterate_reaches (inc : Int) (hinc : 0 < inc) :
    ∀ (n : Nat) (s : RSCState), 0 ≤ s.ramp → s.ramp ≤ 1000 →
      0 ≤ s.desired_speed → s.desired_speed ≤ 1000 →
      s.desired_speed - s.ramp ≤ (n : Int) * inc →
      s.ramp - s.desired_speed ≤ (n : Int) * inc →
      (rsc_iterate inc n s).ramp = s.desired_speed := by
  intro n
  induction n with
  | zero =>
    intro s h0 h1 hd0 hd1 hu hl
    simp only [Nat.cast_zero, zero_mul] at hu hl
    have hr : s.ramp = s.desired_speed := by omega
    simp [rsc_iterate, hr]
  | succ n ih =>
    intro s h0 h1 hd0 hd1 hu hl
    have hchar := rsc_update_ramp_char inc s h0 h1 hd0 hd1 hinc
    have hdes := rsc_update_desired_eq inc s
    push_cast at hu hl
    rw [add_one_mul] at hu hl
    obtain ⟨K, hK, hKnn⟩ : ∃ K : Int, (n : Int) * inc = K ∧ 0 ≤ K :=
      ⟨_, rfl, mul_nonneg (Int.natCast_nonneg n) hinc.le⟩
    rw [hK] at hu hl
    have hb0 : 0 ≤ (rsc_update inc s).ramp := by rw [hchar]; split_ifs <;> omega
    have hb1 : (rsc_update inc s).ramp ≤ 1000 := by rw [hchar]; split_ifs <;> omega
    have hu2 : (rsc_update inc s).desired_speed - (rsc_update inc s).ramp ≤ (n : Int) * inc := by
      rw [hdes, hchar, hK]; split_ifs <;> omega
    have hl2 : (rsc_update inc s).ramp - (rsc_update inc s).desired_speed ≤ (n : Int) * inc := by
      rw [hdes, hchar, hK]; split_ifs <;> omega
    have hfin := ih (rsc_update inc s) hb0 hb1 (hdes ▸ hd0) (hdes ▸ hd1) hu2 hl2
    rw [show rsc_iterate inc (n + 1) s = rsc_iterate inc n (rsc_update inc s) from rfl,
        hfin, hdes]

lemma rsc_update_fixed (inc : Int) (s : RSCState)
    (h0 : 0 ≤ s.ramp) (h1 : s.ramp ≤ 1000)
    (heq : s.ramp = s.desired_speed) :
    rsc_update inc s = s := by
  obtain ⟨d, e, c, r⟩ := s
  simp only at h0 h1 heq
  subst heq
  simp only [rsc_update, constrain_value, RSCState.mk.injEq, true_and, and_true]
  split_ifs <;> omega

/-! ## Helper lemmas about the swash roll factors -/

lemma servo1_pos_real : ((AP_MOTORS_HELI_SINGLE_SERVO1_POS : Int) : ℝ) = -60 := by
  norm_num [AP_MOTORS_HELI_SINGLE_SERVO1_POS]

lemma servo2_pos_real : ((AP_MOTORS_HELI_SINGLE_SERVO2_POS : Int) : ℝ) = 60 := by
  norm_num [AP_MOTORS_HELI_SINGLE_SERVO2_POS]

lemma servo3_pos_real : ((AP_MOTORS_HELI_SINGLE_SERVO3_POS : Int) : ℝ) = 180 := by
  norm_num [AP_MOTORS_HELI_SINGLE_SERVO3_POS]

lemma swash_roll_contribution_at_neg_sixty :
    swash_roll_contribution 500 (-60) 0 = 250 := by
  unfold swash_roll_contribution swash_roll_factor deg_to_rad
  have h : ((-60 : ℝ) + 0) * (Real.pi / 180) = -(Real.pi / 3) := by ring
  rw [h, Real.cos_neg, Real.cos_pi_div_three]
  norm_num

lemma swash_roll_contribution_at_sixty :
    swash_roll_contribution 500 60 0 = 250 := by
  unfold swash_roll_contribution swash_roll_factor deg_to_rad
  have h : ((60 : ℝ) + 0) * (Real.pi / 180) = Real.pi / 3 := by ring
  rw [h, Real.cos_pi_div_three]
  norm_num

lemma swash_roll_contribution_at_one_eighty :
    swash_roll_contribution 500 180 0 = -500 := by
  unfold swash_roll_contribution swash_roll_factor deg_to_rad
  have h : ((180 : ℝ) + 0) * (Real.pi / 180) = Real.pi := by ring
  rw [h, Real.cos_pi]
  norm_num

/-! ## Claim theorems -/

/-- C1 (counterexample): at the boundary where the main rotor's estimated speed
equals the critical threshold (both 500 in `atThresholdState`), the estimated
speed is not strictly below the threshold, yet `rotor_speed_above_critical`
returns `false` — refuting the claim's "true otherwise" reading of the
boundary. -/
theorem rotor_speed_above_critical_boundary_cex :
    atThresholdState.main_rotor.get_estimated_speed =
      atThresholdState.main_rotor.get_critical_speed ∧
    ¬ (atThresholdState.main_rotor.get_estimated_speed <
        atThresholdState.main_rotor.get_critical_speed) ∧
    (rotor_speed_above_critical atThresholdState).1 = false := by
  decide

/-- C1 (amended): `rotor_speed_above_critical` returns `true` exactly when the
main rotor's estimated speed is strictly above the critical threshold, and
returns `false` exactly when the estimated speed is at or below the threshold —
so the equal-to-threshold boundary yields `false` ("not yet above"). -/
theorem rotor_speed_above_critical_iff (s : HeliState) :
    ((rotor_speed_above_critical s).1 = true ↔
      s.main_rotor.get_critical_speed < s.main_rotor.get_estimated_speed) ∧
    ((rotor_speed_above_critical s).1 = false ↔
      s.main_rotor.get_estimated_speed ≤ s.main_rotor.get_critical_speed) := by
  constructor
  · simp [rotor_speed_above_critical]
  · simp [rotor_speed_above_critical]

/-- C2: `allow_arming` returns `true` exactly when the main rotor's estimated
speed strictly exceeds its critical threshold or the rotor is configured to not
require spin-up; hence whenever the estimated speed does not exceed the
threshold and spin-up is required, it returns `false`. -/
theorem allow_arming_iff (s : HeliState) :
    (allow_arming s).1 = true ↔
      (s.main_rotor.get_critical_speed < s.main_rotor.get_estimated_speed ∨
        s.rsc_need_spinup = false) := by
  simp [allow_arming]

/-- C3: for any rotor speed controller instance with ramp position and desired
target in [0, 1000] and a positive fixed increment, one `update` keeps the ramp
in [0, 1000] and never moves it past the desired target from either side; if
the ramp already equals the target, `update` leaves the state exactly
unchanged (no oscillation); and with the target held fixed, iterating `update`
for `|desired − ramp|` ticks brings the ramp exactly to the target. -/
theorem rsc_ramp_no_overshoot_clamped_monotone (inc : Int) (s : RSCState)
    (hinc : 0 < inc)
    (h0 : 0 ≤ s.ramp) (h1 : s.ramp ≤ 1000)
    (hd0 : 0 ≤ s.desired_speed) (hd1 : s.desired_speed ≤ 1000) :
    (0 ≤ (rsc_update inc s).ramp ∧ (rsc_update inc s).ramp ≤ 1000) ∧
    (s.ramp ≤ s.desired_speed →
      s.ramp ≤ (rsc_update inc s).ramp ∧ (rsc_update inc s).ramp ≤ s.desired_speed) ∧
    (s.desired_speed ≤ s.ramp →
      (rsc_update inc s).ramp ≤ s.ramp ∧ s.desired_speed ≤ (rsc_update inc s).ramp) ∧
    (s.ramp = s.desired_speed → rsc_update inc s = s) ∧
    (rsc_iterate inc (s.desired_speed - s.ramp).natAbs s).ramp = s.desired_speed := by
  have hchar := rsc_update_ramp_char inc s h0 h1 hd0 hd1 hinc
  refine ⟨⟨?_, ?_⟩, ?_, ?_, ?_, ?_⟩
  · rw [hchar]; split_ifs <;> omega
  · rw [hchar]; split_ifs <;> omega
  · intro h; rw [hchar]; split_ifs <;> omega
  · intro h; rw [hchar]; split_ifs <;> omega
  · intro h; exact rsc_update_fixed inc s h0 h1 h
  · have h1le : (1 : Int) ≤ inc := hinc
    have hmul : ((s.desired_speed - s.ramp).natAbs : Int) * 1 ≤
        ((s.desired_speed - s.ramp).natAbs : Int) * inc :=
      mul_le_mul_of_nonneg_left h1le (Int.natCast_nonneg _)
    have habs : s.desired_speed - s.ramp ≤ ((s.desired_speed - s.ramp).natAbs : Int) :=
      Int.le_natAbs
    have habs2 : s.ramp - s.desired_speed ≤ ((s.desired_speed - s.ramp).natAbs : Int) := by
      omega
    exact rsc_iterate_reaches inc hinc _ s h0 h1 hd0 hd1
      (by linarith) (by linarith)

/-- A concrete rotor-speed-controller state (desired 12, estimated 0, critical
500, ramp 0) used to instantiate the ramp theorem. -/
def rscW : RSCState :=
  { desired_speed := 12, estimated_speed := 0, critical_speed := 500, ramp := 0 }

/-- Witness for the C3 theorem at increment 5 and state `rscW`. -/
theorem rsc_ramp_no_overshoot_clamped_monotone_witness :
    ((0 : Int) < 5 ∧ 0 ≤ rscW.ramp ∧ rscW.ramp ≤ 1000 ∧
      0 ≤ rscW.desired_speed ∧ rscW.desired_speed ≤ 1000) ∧
    ((0 ≤ (rsc_update 5 rscW).ramp ∧ (rsc_update 5 rscW).ramp ≤ 1000) ∧
     (rscW.ramp ≤ rscW.desired_speed →
       rscW.ramp ≤ (rsc_update 5 rscW).ramp ∧ (rsc_update 5 rscW).ramp ≤ rscW.desired_speed) ∧
     (rscW.desired_speed ≤ rscW.ramp →
       (rsc_update 5 rscW).ramp ≤ rscW.ramp ∧ rscW.desired_speed ≤ (rsc_update 5 rscW).ramp) ∧
     (rscW.ramp = rscW.desired_speed → rsc_update 5 rscW = rscW) ∧
     (rsc_iterate 5 (rscW.desired_speed - rscW.ramp).natAbs rscW).ramp = rscW.desired_speed) :=
  ⟨⟨by decide, by decide, by decide, by decide, by decide⟩,
   rsc_ramp_no_overshoot_clamped_monotone 5 rscW (by decide) (by decide) (by decide)
     (by decide) (by decide)⟩

/-- C4 (counterexample): under the spec's stated factor formula
`cos(angle_i + phase_angle)`, in the CCPM scenario with servo angles −60°, 60°,
180°, phase angle 0° and roll = 500, servo 1 and servo 2 receive equal
same-sign roll contributions of 250 each — not equal-magnitude opposite-sign
ones — and servo 3's contribution is −500, the largest magnitude possible, not
near zero. -/
theorem swash_roll_ccpm_scenario_cex :
    swash_roll_contribution 500 (AP_MOTORS_HELI_SINGLE_SERVO1_POS : ℝ) 0 = 250 ∧
    swash_roll_contribution 500 (AP_MOTORS_HELI_SINGLE_SERVO2_POS : ℝ) 0 = 250 ∧
    swash_roll_contribution 500 (AP_MOTORS_HELI_SINGLE_SERVO3_POS : ℝ) 0 = -500 ∧
    ¬ (swash_roll_contribution 500 (AP_MOTORS_HELI_SINGLE_SERVO1_POS : ℝ) 0 =
        -swash_roll_contribution 500 (AP_MOTORS_HELI_SINGLE_SERVO2_POS : ℝ) 0) ∧
    ¬ (|swash_roll_contribution 500 (AP_MOTORS_HELI_SINGLE_SERVO3_POS : ℝ) 0| < 500) := by
  rw [servo1_pos_real, servo2_pos_real, servo3_pos_real,
      swash_roll_contribution_at_neg_sixty, swash_roll_contribution_at_sixty,
      swash_roll_contribution_at_one_eighty]
  norm_num

/-- C4 (amended): with the roll factors derived from
`cos(angle_i + phase_angle)` as the spec states, the CCPM scenario (angles
−60°, 60°, 180°, phase 0°, roll 500) gives servo 1 and servo 2 equal
contributions of 250 each (same sign), while servo 3 receives the
largest-magnitude contribution −500, of the opposite sign from servo 1 and
servo 2. -/
theorem swash_roll_ccpm_scenario_amended :
    swash_roll_contribution 500 (AP_MOTORS_HELI_SINGLE_SERVO1_POS : ℝ) 0 =
      swash_roll_contribution 500 (AP_MOTORS_HELI_SINGLE_SERVO2_POS : ℝ) 0 ∧
    swash_roll_contribution 500 (AP_MOTORS_HELI_SINGLE_SERVO1_POS : ℝ) 0 = 250 ∧
    swash_roll_contribution 500 (AP_MOTORS_HELI_SINGLE_SERVO3_POS : ℝ) 0 = -500 ∧
    |swash_roll_contribution 500 (AP_MOTORS_HELI_SINGLE_SERVO3_POS : ℝ) 0| >
      |swash_roll_contribution 500 (AP_MOTORS_HELI_SINGLE_SERVO1_POS : ℝ) 0| ∧
    swash_roll_contribution 500 (AP_MOTORS_HELI_SINGLE_SERVO3_POS : ℝ) 0 *
      swash_roll_contribution 500 (AP_MOTORS_HELI_SINGLE_SERVO1_POS : ℝ) 0 < 0 := by
  rw [servo1_pos_real, servo2_pos_real, servo3_pos_real,
      swash_roll_contribution_at_neg_sixty, swash_roll_contribution_at_sixty,
      swash_roll_contribution_at_one_eighty]
  norm_num

/-- C5: for every tail-type value that is none of the four recognized variants,
the tail control law computes exactly what the plain servo variant computes —
the clamped `yaw + feed-forward` servo law — so an unknown configuration never
fails and never silently zeroes the tail output. -/
theorem tail_control_law_unknown_fallback (t yaw_cmd coll_ff : Int)
    (h : t ≠ AP_MOTORS_HELI_SINGLE_TAILTYPE_SERVO ∧
         t ≠ AP_MOTORS_HELI_SINGLE_TAILTYPE_SERVO_EXTGYRO ∧
         t ≠ AP_MOTORS_HELI_SINGLE_TAILTYPE_DIRECTDRIVE_VARPITCH ∧
         t ≠ AP_MOTORS_HELI_SINGLE_TAILTYPE_DIRECTDRIVE_FIXEDPITCH) :
    tail_control_law t yaw_cmd coll_ff =
      tail_control_law AP_MOTORS_HELI_SINGLE_TAILTYPE_SERVO yaw_cmd coll_ff ∧
    tail_control_law t yaw_cmd coll_ff = tail_servo_law yaw_cmd coll_ff := by
  obtain ⟨h0, h1, h2, h3⟩ := h
  unfold tail_control_law
  rw [if_neg h0, if_neg h1, if_neg h2, if_neg h3, if_pos rfl]
  exact ⟨rfl, rfl⟩

/-- Witness for the C5 theorem at the unrecognized tail type 9 with yaw
command 700 and feed-forward 0. -/
theorem tail_control_law_unknown_fallback_witness :
    ((9 : Int) ≠ AP_MOTORS_HELI_SINGLE_TAILTYPE_SERVO ∧
     (9 : Int) ≠ AP_MOTORS_HELI_SINGLE_TAILTYPE_SERVO_EXTGYRO ∧
     (9 : Int) ≠ AP_MOTORS_HELI_SINGLE_TAILTYPE_DIRECTDRIVE_VARPITCH ∧
     (9 : Int) ≠ AP_MOTORS_HELI_SINGLE_TAILTYPE_DIRECTDRIVE_FIXEDPITCH) ∧
    (tail_control_law 9 700 0 =
       tail_control_law AP_MOTORS_HELI_SINGLE_TAILTYPE_SERVO 700 0 ∧
     tail_control_law 9 700 0 = tail_servo_law 700 0) :=
  ⟨by decide, tail_control_law_unknown_fallback 9 700 0 (by decide)⟩

lemma rsc_iterate_five_ramp :
    ∀ (n : Nat) (e c r : Int), 0 ≤ r → r ≤ 1000 →
      (rsc_iterate 5 n { desired_speed := 1000, estimated_speed := e,
                         critical_speed := c, ramp := r }).ramp
        = min (r + 5 * (n : Int)) 1000 := by
  intro n
  induction n with
  | zero =>
    intro e c r h0 h1
    simp only [rsc_iterate, Nat.cast_zero, mul_zero, add_zero]
    omega
  | succ n ih =>
    intro e c r h0 h1
    have hchar := rsc_update_ramp_char 5 ⟨1000, e, c, r⟩ h0 h1
      (by norm_num) (by norm_num) (by norm_num)
    have hstate : rsc_update 5 (⟨1000, e, c, r⟩ : RSCState) =
        ⟨1000, e, c, (rsc_update 5 (⟨1000, e, c, r⟩ : RSCState)).ramp⟩ := rfl
    have hb0 : 0 ≤ (rsc_update 5 (⟨1000, e, c, r⟩ : RSCState)).ramp := by
      rw [hchar]; dsimp only; split_ifs <;> omega
    have hb1 : (rsc_update 5 (⟨1000, e, c, r⟩ : RSCState)).ramp ≤ 1000 := by
      rw [hchar]; dsimp only; split_ifs <;> omega
    show (rsc_iterate 5 n (rsc_update 5 (⟨1000, e, c, r⟩ : RSCState))).ramp = _
    rw [hstate, ih e c _ hb0 hb1, hchar]
    dsimp only
    push_cast
    split_ifs <;> omega

set_option maxRecDepth 10000 in
/-- C6: the direct-drive tail ramp increment constant equals 5, which is
exactly 1000 / (2 × 100), and a ramp started at 0 with desired target 1000
reaches exactly 1000 after 200 per-tick updates (and stands at 995 one tick
earlier) — two seconds at a 100 Hz tick rate. -/
theorem tail_ramp_increment_two_seconds :
    AP_MOTORS_HELI_SINGLE_TAIL_RAMP_INCREMENT = 5 ∧
    AP_MOTORS_HELI_SINGLE_TAIL_RAMP_INCREMENT = 1000 / (2 * 100) ∧
    (rsc_iterate AP_MOTORS_HELI_SINGLE_TAIL_RAMP_INCREMENT 200
        { desired_speed := 1000, estimated_speed := 0,
          critical_speed := 0, ramp := 0 }).ramp = 1000 ∧
    (rsc_iterate AP_MOTORS_HELI_SINGLE_TAIL_RAMP_INCREMENT 199
        { desired_speed := 1000, estimated_speed := 0,
          critical_speed := 0, ramp := 0 }).ramp = 995 := by
  refine ⟨rfl, rfl, ?_, ?_⟩ <;>
    · show (rsc_iterate 5 _ _).ramp = _
      rw [rsc_iterate_five_ramp _ 0 0 0 le_rfl (by norm_num)]
      norm_num

/-- C7: `supports_yaw_passthrough` returns `true` exactly when the configured
tail type is the servo-with-external-gyro variant; every other value, known or
unknown, yields `false`. -/
theorem supports_yaw_passthrough_iff (s : HeliState) :
    (supports_yaw_passthrough s).1 = true ↔
      s.tail_type = AP_MOTORS_HELI_SINGLE_TAILTYPE_SERVO_EXTGYRO := by
  simp [supports_yaw_passthrough]

/-- C8: every exposed query — estimated and desired rotor speed, the
critical-speed comparison, tail type, external gyro gain, flybar presence,
phase angle, yaw-passthrough support and the motor mask — leaves the whole
orchestrator state (both rotor speed controllers, every configuration field
and the output channels) unchanged. -/
theorem queries_leave_state_unchanged (s : HeliState) :
    (get_estimated_rotor_speed s).2 = s ∧
    (get_desired_rotor_speed s).2 = s ∧
    (rotor_speed_above_critical s).2 = s ∧
    (tail_type_query s).2 = s ∧
    (ext_gyro_gain_get s).2 = s ∧
    (has_flybar s).2 = s ∧
    (get_phase_angle s).2 = s ∧
    (supports_yaw_passthrough s).2 = s ∧
    (get_motor_mask s).2 = s ∧
    ((get_motor_mask s).2).outputs = s.outputs :=
  ⟨rfl, rfl, rfl, rfl, rfl, rfl, rfl, rfl, rfl, rfl⟩

/-- C9: storing any `int16` value through the `ext_gyro_gain` setter and
reading it back through the getter returns exactly that value — the setter
performs no clamping to the documented 1000–2000 pwm range and no validation. -/
theorem ext_gyro_gain_set_get_roundtrip (v : Int) (s : HeliState)
    (_hlo : -32768 ≤ v) (_hhi : v ≤ 32767) :
    (ext_gyro_gain_get (ext_gyro_gain_set v s)).1 = v := rfl

/-- Witness for the C9 theorem at the value 2500, which lies outside the
documented 1000–2000 pwm range and is stored unchanged. -/
theorem ext_gyro_gain_set_get_roundtrip_witness :
    ((-32768 : Int) ≤ 2500 ∧ (2500 : Int) ≤ 32767) ∧
    (ext_gyro_gain_get (ext_gyro_gain_set 2500 baseState)).1 = 2500 :=
  ⟨⟨by decide, by decide⟩,
   ext_gyro_gain_set_get_roundtrip 2500 baseState (by decide) (by decide)⟩

/-- C10: the three main-rotor queries and the arming gate read only the main
rotor controller: replacing the tail rotor controller's state by any other
state changes none of their results. -/
theorem main_rotor_queries_ignore_tail_rotor (s : HeliState) (t : RSCState) :
    (get_estimated_rotor_speed { s with tail_rotor := t }).1 =
      (get_estimated_rotor_speed s).1 ∧
    (get_desired_rotor_speed { s with tail_rotor := t }).1 =
      (get_desired_rotor_speed s).1 ∧
    (rotor_speed_above_critical { s with tail_rotor := t }).1 =
      (rotor_speed_above_critical s).1 ∧
    (allow_arming { s with tail_rotor := t }).1 = (allow_arming s).1 :=
  ⟨rfl, rfl, rfl, rfl⟩

end HeliSingle
